import Mathlib

/-!
Shallow embedding of the gameplay core of `src/src/main.rs` (a Bevy
side-scrolling runner).  `f32` quantities are modelled as rationals `ℚ`;
engine side effects (audio cues, state-transition requests) are made
explicit in the return values of the per-frame system functions.
-/

namespace BevyFinal

/-- `GameState` enum from the source: `{Menu, Playing, GameOver}`. -/
inductive GameState where
  | Menu
  | Playing
  | GameOver
deriving DecidableEq, Repr

/-- `FLOOR_Y` constant (`-100.0`). -/
def FLOOR_Y : ℚ := -100

/-- `PLAYER_HEIGHT` constant (`50.0`). -/
def PLAYER_HEIGHT : ℚ := 50

/-- `OBSTACLE_SPACING` constant (`220.0`). -/
def OBSTACLE_SPACING : ℚ := 220

/-- `OBSTACLE_START_X` constant (`400.0`). -/
def OBSTACLE_START_X : ℚ := 400

/-- `OBSTACLE_MIN_X` constant (`-550.0`). -/
def OBSTACLE_MIN_X : ℚ := -550

/-- `OBSTACLE_RESET_X` constant (`550.0`). -/
def OBSTACLE_RESET_X : ℚ := 550

/-- `OBSTACLE_SPEED` constant (`220.0`). -/
def OBSTACLE_SPEED : ℚ := 220

/-- The floor contact height `FLOOR_Y + PLAYER_HEIGHT / 2.0` used in
`move_player` both for the on-floor test and as the clamp minimum. -/
def floorContact : ℚ := FLOOR_Y + PLAYER_HEIGHT / 2

/-- The keyboard facts `move_player` reads from `ButtonInput<KeyCode>`:
whether `ArrowDown` is held (`input.pressed`) and whether `ArrowUp` was
just pressed this frame (`input.just_pressed`). -/
structure Input where
  downPressed : Bool
  upJustPressed : Bool
deriving DecidableEq, Repr

/-- The gameplay-relevant player fields: `Transform.translation.y` and
`Velocity.0.y` (x is never written by the gameplay systems). -/
structure PlayerState where
  y : ℚ
  vy : ℚ
deriving DecidableEq, Repr

/-- `gravity` selection in `move_player`:
`if input.pressed(KeyCode::ArrowDown) { -2000.0 } else { -500.0 }`. -/
def gravity (inp : Input) : ℚ := if inp.downPressed then -2000 else -500

/-- `jump_speed = 350.0` in `move_player`. -/
def jump_speed : ℚ := 350

/-- Result of one `move_player` frame: the updated player fields plus the
number of `audio.play(audio_handles.jump)` calls made. -/
structure MovePlayerResult where
  st : PlayerState
  jumpCues : Nat
deriving DecidableEq, Repr

/-- One frame of `move_player` (src/src/main.rs:249-273): on-floor test
against `FLOOR_Y + PLAYER_HEIGHT/2.0 + 0.1`, jump on fresh `ArrowUp`
press while on floor (sets `vel.y = jump_speed` and plays the jump cue),
then gravity integration `vel.y += gravity * delta`, then
`tf.y = (tf.y + vel.y * delta).max(FLOOR_Y + PLAYER_HEIGHT/2.0)`.
The clamp does not touch the velocity. -/
def move_player (inp : Input) (delta : ℚ) (st : PlayerState) : MovePlayerResult :=
  let g := gravity inp
  let on_floor : Bool := decide (st.y ≤ floorContact + 1/10)
  let jumped : Bool := inp.upJustPressed && on_floor
  let vyAfterJump := if jumped then jump_speed else st.vy
  let cues : Nat := if jumped then 1 else 0
  let vy := vyAfterJump + g * delta
  let y := max (st.y + vy * delta) floorContact
  ⟨⟨y, vy⟩, cues⟩

/-- Obstacle frame handles installed by `setup_frame_resources`
(src/src/main.rs:148-152), modelled by their asset paths. -/
def obstacle_ground_frames : List String :=
  ["sprites/obstacle-ground1.png", "sprites/obstacle-ground2.png",
   "sprites/obstacle-ground3.png"]

/-- Air-lane obstacle frame handles from `setup_frame_resources`
(src/src/main.rs:154-158). -/
def obstacle_air_frames : List String :=
  ["sprites/obstacle-air1.png", "sprites/obstacle-air2.png",
   "sprites/obstacle-air3.png"]

/-- `ObstacleTextures.ground = ground_frames[0]` (src/src/main.rs:162-165). -/
def obstacleTexture_ground : String := obstacle_ground_frames.getD 0 ""

/-- `ObstacleTextures.air = air_frames[0]` (src/src/main.rs:162-165). -/
def obstacleTexture_air : String := obstacle_air_frames.getD 0 ""

/-- The per-obstacle entity fields the gameplay systems touch:
`Transform.translation.x/.y`, the `Airborne` lane flag, the displayed
`Sprite` image (as an asset path), and the `AnimationTimer` elapsed time
plus `FrameIndex` used by `animate_obstacle_frames`. -/
structure ObstacleState where
  x : ℚ
  y : ℚ
  airborne : Bool
  sprite : String
  timer : ℚ
  frameIndex : Nat
deriving DecidableEq, Repr

/-- The body of the `move_obstacles` loop for one obstacle
(src/src/main.rs:327-341): `x -= OBSTACLE_SPEED * delta`; if the new x is
`< OBSTACLE_MIN_X`, draw a fair lane flag (`rng.gen_bool(0.5)`, modelled
by the explicit draw `b`), reset `x = OBSTACLE_RESET_X`, put `y` at the
lane offset (`FLOOR_Y + 90` air, `FLOOR_Y + 10` ground) and swap the
sprite to the lane texture.  The animation timer and frame index are not
part of the query and are untouched. -/
def move_obstacle_step (delta : ℚ) (b : Bool) (o : ObstacleState) : ObstacleState :=
  let x1 := o.x - OBSTACLE_SPEED * delta
  if x1 < OBSTACLE_MIN_X then
    { o with
      airborne := b
      x := OBSTACLE_RESET_X
      y := if b then FLOOR_Y + 90 else FLOOR_Y + 10
      sprite := if b then obstacleTexture_air else obstacleTexture_ground }
  else
    { o with x := x1 }

/-- `move_obstacles` (src/src/main.rs:319-343): the recycle step applied
to every obstacle of the pool in place.  `rng` supplies the independent
fair `gen_bool(0.5)` draws of `thread_rng`, one potential draw per
obstacle of the frame. -/
def move_obstacles (delta : ℚ) (rng : Nat → Bool) :
    List ObstacleState → List ObstacleState
  | [] => []
  | o :: rest =>
      move_obstacle_step delta (rng 0) o ::
        move_obstacles delta (fun n => rng (n + 1)) rest

/-- `setup_obstacles` (src/src/main.rs:200-225): spawns 5 obstacles at
`x = OBSTACLE_START_X + i * OBSTACLE_SPACING`, each lane drawn by
`rng.gen_bool(0.5)` (the draw for slot `i` is `rng i`), `y` at the lane
offset, sprite the lane texture, a fresh `0.3 s` repeating animation
timer and frame index 0. -/
def setup_obstacles (rng : Nat → Bool) : List ObstacleState :=
  (List.range 5).map fun i =>
    let b := rng i
    { x := OBSTACLE_START_X + (i : ℚ) * OBSTACLE_SPACING
      y := if b then FLOOR_Y + 90 else FLOOR_Y + 10
      airborne := b
      sprite := if b then obstacleTexture_air else obstacleTexture_ground
      timer := 0
      frameIndex := 0 }

/-- The `AnimationTimer` period of an obstacle: `0.3` seconds
(src/src/main.rs:221). -/
def obstacle_anim_period : ℚ := 3/10

/-- One frame of `animate_obstacle_frames` for one obstacle
(src/src/main.rs:345-363): tick the repeating timer by `delta`; when it
finishes, pick the frame set of the current lane, advance
`index = (index + 1) % frames.len()` and look the new sprite up in that
set (the lookup `frames[index.0]` is modelled by the checked `getD`
with its result also reported as the second component, `none` when the
timer did not finish, and the flag telling whether the index was in
bounds).  A repeating Bevy timer wraps its elapsed time modulo the
period and `just_finished` fires once however large `delta` is. -/
def animate_obstacle_step (delta : ℚ) (o : ObstacleState) :
    ObstacleState × Option String :=
  let t := o.timer + delta
  if obstacle_anim_period ≤ t then
    let frames := if o.airborne then obstacle_air_frames else obstacle_ground_frames
    let idx := (o.frameIndex + 1) % frames.length
    let wrapped := t - obstacle_anim_period * (⌊t / obstacle_anim_period⌋ : ℤ)
    ({ o with timer := wrapped, frameIndex := idx, sprite := frames.getD idx "" },
      frames[idx]?)
  else
    ({ o with timer := t }, none)

/-- Squared Euclidean distance of two `Vec3` translations.  The source
compares `player.translation.distance(obstacle.translation) < 50.0`;
for the nonnegative threshold this is the same predicate as
`distSq < 50^2`, which keeps the embedding inside `ℚ`. -/
structure V3 where
  x : ℚ
  y : ℚ
  z : ℚ
deriving DecidableEq, Repr

/-- Squared distance between two translations. -/
def distSq (a b : V3) : ℚ :=
  (a.x - b.x) ^ 2 + (a.y - b.y) ^ 2 + (a.z - b.z) ^ 2

/-- `check_collision` (src/src/main.rs:365-380): for every obstacle
within distance 50 of the player it calls
`audio.play(handles.game_over)` — counted in the first component — and
`next.set(GameState::GameOver)` — a pending-state overwrite, so the
second component records the final pending transition request (Bevy
applies a pending `NextState` once per frame no matter how many `set`
calls happened). -/
def check_collision (player : V3) (obstacles : List V3) :
    Nat × Option GameState :=
  obstacles.foldl
    (fun acc ob =>
      if distSq player ob < 50 ^ 2 then (acc.1 + 1, some GameState.GameOver)
      else acc)
    (0, none)

/-- One frame of `update_score` accumulation (src/src/main.rs:294):
`score.value += delta * 5.0`. -/
def update_score (delta : ℚ) (score : ℚ) : ℚ := score + delta * 5

/-- The rendered score string (src/src/main.rs:297):
`format!("Score: \x7b\x7d", score.value.floor() as i32)`. -/
def score_display (score : ℚ) : String := "Score: " ++ toString (⌊score⌋ : ℤ)

/-- Score after a run of Playing frames with the given `Δt` sequence,
starting from the `Score::default()` value 0. -/
def run_score (ds : List ℚ) : ℚ := ds.foldl (fun s d => update_score d s) 0

/-! ## Helper lemmas -/

/-- Both gravity settings of `move_player` are strictly negative. -/
theorem gravity_neg (inp : Input) : gravity inp < 0 := by
  unfold gravity; split <;> norm_num

/-- When the jump condition fails, `move_player` is pure gravity
integration followed by the floor clamp, with no cue. -/
theorem move_player_nojump (inp : Input) (d : ℚ) (st : PlayerState)
    (h : (inp.upJustPressed && decide (st.y ≤ floorContact + 1/10)) = false) :
    move_player inp d st =
      ⟨⟨max (st.y + (st.vy + gravity inp * d) * d) floorContact,
        st.vy + gravity inp * d⟩, 0⟩ := by
  simp only [move_player, h]
  simp

/-- When the jump fires, `move_player` starts from `jump_speed` and plays
one cue. -/
theorem move_player_jump (inp : Input) (d : ℚ) (st : PlayerState)
    (h : (inp.upJustPressed && decide (st.y ≤ floorContact + 1/10)) = true) :
    move_player inp d st =
      ⟨⟨max (st.y + (jump_speed + gravity inp * d) * d) floorContact,
        jump_speed + gravity inp * d⟩, 1⟩ := by
  simp only [move_player, h]
  simp

/-- Score accumulation from any start value adds five points per second. -/
theorem foldl_update_score (ds : List ℚ) (a : ℚ) :
    ds.foldl (fun s d => update_score d s) a = a + 5 * ds.sum := by
  induction ds generalizing a with
  | nil => simp
  | cons d rest ih =>
      rw [List.foldl_cons, ih, List.sum_cons, update_score]; ring

/-- `move_obstacles` keeps the pool size. -/
theorem move_obstacles_length (d : ℚ) (rng : Nat → Bool)
    (obs : List ObstacleState) :
    (move_obstacles d rng obs).length = obs.length := by
  induction obs generalizing rng with
  | nil => rfl
  | cons o rest ih => simp [move_obstacles, ih]

/-- `move_obstacles` rewrites every slot in place: slot `i` of the result
is the recycle step applied to slot `i` of the input with draw `rng i`. -/
theorem move_obstacles_slot (d : ℚ) (rng : Nat → Bool)
    (obs : List ObstacleState) (i : Nat) :
    (move_obstacles d rng obs)[i]? =
      (obs[i]?).map (move_obstacle_step d (rng i)) := by
  induction obs generalizing rng i with
  | nil => simp [move_obstacles]
  | cons o rest ih =>
      cases i with
      | zero => simp [move_obstacles]
      | succ n => simp [move_obstacles, ih]

/-! ## Claim theorems -/

/-- C1: the spec scenario — player at the origin, obstacles at (30,0,0)
and (10,0,0), both within the 50-unit threshold.  `check_collision`
requests the GameOver transition once (pending-state overwrite), but it
plays the game-over cue once per qualifying obstacle: two cues, not the
single cue the claim requires. -/
theorem C1_collision_cue_not_deduped :
    check_collision ⟨0, 0, 0⟩ [⟨30, 0, 0⟩, ⟨10, 0, 0⟩] =
      (2, some GameState.GameOver) ∧ (2 : Nat) ≠ 1 := by
  constructor
  · simp [check_collision, distSq]
    norm_num
  · norm_num

/-- C2: a frame in which the floor clamp engages — player at the contact
height `-75` with velocity `-100`, `Δt = 0.1`, no input.  The unclamped
position `-90` is below the clamp minimum, the position is clamped back
to the minimum, yet the stored velocity stays `-150` instead of being
zeroed as the claim requires. -/
theorem C2_clamp_keeps_velocity :
    ((-75 : ℚ) + (-150) * (1/10) < FLOOR_Y + PLAYER_HEIGHT / 2) ∧
    move_player ⟨false, false⟩ (1/10) ⟨-75, -100⟩ = ⟨⟨-75, -150⟩, 0⟩ ∧
    ((-150 : ℚ) ≠ 0) := by
  refine ⟨by norm_num [FLOOR_Y, PLAYER_HEIGHT], ?_, by norm_num⟩
  simp [move_player, gravity, floorContact, FLOOR_Y, PLAYER_HEIGHT, jump_speed]
  norm_num

/-- C3: an obstacle whose x crosses below `OBSTACLE_MIN_X` during a step
ends the step at `OBSTACLE_RESET_X`, on one of the two lane offsets, with
the lane flag set to the fresh fair draw and the sprite matching it; the
pool is rewritten slot by slot (slot `i` of the result is the step
applied to slot `i` of the input), its size is preserved, and setup
seeds exactly 5 obstacles. -/
theorem C3_obstacle_recycling (d : ℚ) (b : Bool) (o : ObstacleState)
    (hcross : o.x - OBSTACLE_SPEED * d < OBSTACLE_MIN_X) :
    (move_obstacle_step d b o).x = OBSTACLE_RESET_X ∧
    ((move_obstacle_step d b o).y = FLOOR_Y + 10 ∨
      (move_obstacle_step d b o).y = FLOOR_Y + 90) ∧
    (move_obstacle_step d b o).airborne = b ∧
    (move_obstacle_step d b o).sprite =
      (if b then obstacleTexture_air else obstacleTexture_ground) ∧
    (∀ rng obs i, (move_obstacles d rng obs)[i]? =
      (obs[i]?).map (move_obstacle_step d (rng i))) ∧
    (∀ rng obs, (move_obstacles d rng obs).length = obs.length) ∧
    (∀ rng, (setup_obstacles rng).length = 5) := by
  refine ⟨?_, ?_, ?_, ?_, fun rng obs i => move_obstacles_slot d rng obs i,
    fun rng obs => move_obstacles_length d rng obs,
    fun rng => by simp [setup_obstacles]⟩
  · simp [move_obstacle_step, hcross]
  · cases b <;> simp [move_obstacle_step, hcross]
  · simp [move_obstacle_step, hcross]
  · simp [move_obstacle_step, hcross]

/-- C3 witness: a concrete crossing step (`Δt = 10`, obstacle at x = 0)
lands on `OBSTACLE_RESET_X`. -/
theorem C3_obstacle_recycling_witness :
    (move_obstacle_step 10 true ⟨0, 0, false, "", 0, 0⟩).x = OBSTACLE_RESET_X :=
  (C3_obstacle_recycling 10 true ⟨0, 0, false, "", 0, 0⟩
    (by norm_num [OBSTACLE_SPEED, OBSTACLE_MIN_X])).1

/-- C4: over any sequence of Playing-frame deltas the accumulated score
is exactly five points per second of summed delta (exact in the rational
model of `f32` arithmetic), the rendered text is `"Score: "` followed by
the floor of the accumulated score, one frame never decreases the score
when its delta is nonnegative, and the score after any earlier portion
of the run is bounded by the final score. -/
theorem C4_score_accumulation (ds : List ℚ) (hnn : ∀ d ∈ ds, 0 ≤ d) :
    run_score ds = 5 * ds.sum ∧
    score_display (run_score ds) = "Score: " ++ toString (⌊(5 : ℚ) * ds.sum⌋ : ℤ) ∧
    (∀ s d, 0 ≤ d → s ≤ update_score d s) ∧
    (∀ pre suf, ds = pre ++ suf → run_score pre ≤ run_score ds) := by
  have hrun : ∀ l : List ℚ, run_score l = 5 * l.sum := fun l => by
    simpa using foldl_update_score l 0
  refine ⟨hrun ds, by rw [hrun ds]; rfl, ?_, ?_⟩
  · intro s d hd
    have h5 : 0 ≤ d * 5 := by nlinarith
    simp only [update_score]
    linarith
  · intro pre suf hsplit
    have hsuf : 0 ≤ suf.sum :=
      List.sum_nonneg fun x hx =>
        hnn x (by rw [hsplit]; exact List.mem_append.mpr (Or.inr hx))
    rw [hrun, hrun, hsplit, List.sum_append]
    linarith

/-- C4 witness: the run `[0.5, 0.5, 0.2]` accumulates `6` points. -/
theorem C4_score_accumulation_witness :
    run_score [1/2, 1/2, 1/5] = 5 * ([1/2, 1/2, 1/5] : List ℚ).sum :=
  (C4_score_accumulation [1/2, 1/2, 1/5]
    (by
      intro d hd
      simp only [List.mem_cons, List.not_mem_nil, or_false] at hd
      rcases hd with h | h | h <;> rw [h] <;> norm_num)).1

/-- C5 counterexample: with `Δt = 1` (which is `≥ 0`), a fresh jump press
from the floor leaves post-step `velocity.y = 350 - 500·1 = -150`, not
strictly positive — the claim fails for large enough `Δt ≥ 0`. -/
theorem C5_counterexample :
    ((0 : ℚ) ≤ 1) ∧ ((-75 : ℚ) ≤ floorContact + 1/10) ∧
    (move_player ⟨false, true⟩ 1 ⟨-75, 0⟩).st.vy = -150 ∧
    ¬ (0 < (-150 : ℚ)) := by
  refine ⟨by norm_num, by norm_num [floorContact, FLOOR_Y, PLAYER_HEIGHT],
    ?_, by norm_num⟩
  simp [move_player, gravity, floorContact, FLOOR_Y, PLAYER_HEIGHT, jump_speed]
  norm_num

/-- C5 amended: given on-floor, a fresh jump press, `Δt ≥ 0` and
`|active gravity|·Δt < jump_speed` (true at all realistic frame deltas,
below 0.7 s normal and 0.175 s fast-fall), the post-step velocity is
strictly positive and exactly one jump cue is played. -/
theorem C5_jump_initiation (inp : Input) (d : ℚ) (st : PlayerState)
    (hd : 0 ≤ d) (hfloor : st.y ≤ floorContact + 1/10)
    (hup : inp.upJustPressed = true)
    (hsmall : -gravity inp * d < jump_speed) :
    0 < (move_player inp d st).st.vy ∧ (move_player inp d st).jumpCues = 1 := by
  have hcond : (inp.upJustPressed && decide (st.y ≤ floorContact + 1/10)) = true := by
    rw [hup, Bool.true_and, decide_eq_true_eq]
    exact hfloor
  rw [move_player_jump inp d st hcond]
  refine ⟨?_, rfl⟩
  show 0 < jump_speed + gravity inp * d
  linarith

/-- C5 witness: jump from the floor at `Δt = 1/60`. -/
theorem C5_jump_initiation_witness :
    0 < (move_player ⟨false, true⟩ (1/60) ⟨-75, 0⟩).st.vy :=
  (C5_jump_initiation ⟨false, true⟩ (1/60) ⟨-75, 0⟩ (by norm_num)
    (by norm_num [floorContact, FLOOR_Y, PLAYER_HEIGHT]) rfl
    (by norm_num [gravity, jump_speed])).1

/-- C6 counterexample: two on-floor states without jump input that do not
end the step exactly at the contact height.  At `y = -74.95` (within the
`ε = 0.1` on-floor band) with zero velocity and `Δt = 0` the position
stays `-74.95 ≠ -75`; at the contact height with upward velocity `350`
and `Δt = 0.1` the player rises to `-45 ≠ -75`. -/
theorem C6_counterexample :
    (((-7495)/100 : ℚ) ≤ floorContact + 1/10) ∧
    (move_player ⟨false, false⟩ 0 ⟨(-7495)/100, 0⟩).st.y = (-7495)/100 ∧
    (((-7495)/100 : ℚ) ≠ floorContact) ∧
    ((-75 : ℚ) ≤ floorContact + 1/10) ∧
    (move_player ⟨false, false⟩ (1/10) ⟨-75, 350⟩).st.y = -45 ∧
    ((-45 : ℚ) ≠ floorContact) := by
  refine ⟨by norm_num [floorContact, FLOOR_Y, PLAYER_HEIGHT], ?_,
    by norm_num [floorContact, FLOOR_Y, PLAYER_HEIGHT],
    by norm_num [floorContact, FLOOR_Y, PLAYER_HEIGHT], ?_,
    by norm_num [floorContact, FLOOR_Y, PLAYER_HEIGHT]⟩
  · simp [move_player, gravity, floorContact, FLOOR_Y, PLAYER_HEIGHT, jump_speed]
    norm_num
  · simp [move_player, gravity, floorContact, FLOOR_Y, PLAYER_HEIGHT, jump_speed]
    norm_num

/-- C6 amended: if the player starts at or below the contact height with
nonpositive vertical velocity, `Δt ≥ 0` and the jump key is not newly
pressed, the integration-and-clamp step ends exactly at
`floor_y + half_height`. -/
theorem C6_floor_clamp_rest (inp : Input) (d : ℚ) (st : PlayerState)
    (hd : 0 ≤ d) (hy : st.y ≤ floorContact) (hvy : st.vy ≤ 0)
    (hnojump : inp.upJustPressed = false) :
    (move_player inp d st).st.y = floorContact := by
  have hcond : (inp.upJustPressed && decide (st.y ≤ floorContact + 1/10)) = false := by
    simp [hnojump]
  rw [move_player_nojump inp d st hcond]
  show max (st.y + (st.vy + gravity inp * d) * d) floorContact = floorContact
  have hg : gravity inp < 0 := gravity_neg inp
  have hvy2 : st.vy + gravity inp * d ≤ 0 := by nlinarith
  have hdrop : (st.vy + gravity inp * d) * d ≤ 0 := by nlinarith
  exact max_eq_right (by linarith)

/-- C6 witness: resting on the floor through a `Δt = 0.1` frame. -/
theorem C6_floor_clamp_rest_witness :
    (move_player ⟨false, false⟩ (1/10) ⟨-75, 0⟩).st.y = floorContact :=
  C6_floor_clamp_rest ⟨false, false⟩ (1/10) ⟨-75, 0⟩ (by norm_num)
    (by norm_num [floorContact, FLOOR_Y, PLAYER_HEIGHT]) (by norm_num) rfl

/-- C7 counterexample: initial seeding places the five obstacles at
x = 400, 620, 840, 1060, 1280 — four of them already above
`OBSTACLE_RESET_X = 550`, so the lifetime invariant fails at seeding. -/
theorem C7_counterexample :
    (setup_obstacles (fun _ => false)).map (fun o => o.x) =
      [400, 620, 840, 1060, 1280] ∧
    ¬ ((620 : ℚ) ≤ OBSTACLE_RESET_X) := by
  constructor
  · simp [setup_obstacles, OBSTACLE_START_X, OBSTACLE_SPACING, List.range_succ]
    norm_num
  · norm_num [OBSTACLE_RESET_X]

/-- C7 amended: after any movement step with `Δt ≥ 0` an obstacle ends at
`x ≥ OBSTACLE_MIN_X`, and the upper bound `x ≤ OBSTACLE_RESET_X` is
preserved by every step — so once an obstacle has entered
`[MIN_X, RESET_X]` it stays there; the initially seeded positions
`400 + 220·i` for `i ≥ 1` start above that interval. -/
theorem C7_x_bounds_after_step (d : ℚ) (hd : 0 ≤ d) (b : Bool)
    (o : ObstacleState) :
    OBSTACLE_MIN_X ≤ (move_obstacle_step d b o).x ∧
    (o.x ≤ OBSTACLE_RESET_X → (move_obstacle_step d b o).x ≤ OBSTACLE_RESET_X) := by
  by_cases h : o.x - OBSTACLE_SPEED * d < OBSTACLE_MIN_X
  · simp [move_obstacle_step, h]
    norm_num [OBSTACLE_MIN_X, OBSTACLE_RESET_X]
  · simp only [move_obstacle_step, if_neg h]
    have hsd : 0 ≤ OBSTACLE_SPEED * d := by
      have : (0 : ℚ) ≤ OBSTACLE_SPEED := by norm_num [OBSTACLE_SPEED]
      nlinarith
    exact ⟨le_of_not_lt h, fun hx => by linarith⟩

/-- C7 witness: a non-crossing step from x = 0 stays inside the band. -/
theorem C7_x_bounds_after_step_witness :
    OBSTACLE_MIN_X ≤ (move_obstacle_step 1 false ⟨0, 0, false, "", 0, 0⟩).x :=
  (C7_x_bounds_after_step 1 (by norm_num) false ⟨0, 0, false, "", 0, 0⟩).1

/-- Change of `Velocity.0.y` over one `move_player` frame. -/
def velocity_change (inp : Input) (d : ℚ) (st : PlayerState) : ℚ :=
  (move_player inp d st).st.vy - st.vy

/-- C8 counterexample: two frames on which the claim fails.  With
`Δt = 0` both velocity changes are `0`, so the strict inequality fails;
and on a jump frame with `Δt = 0.2` the fast-fall change
(`|350 - 2000·0.2 - 0| = 50`) is strictly smaller than the normal one
(`|350 - 500·0.2 - 0| = 250`). -/
theorem C8_counterexample :
    (¬ (|velocity_change ⟨false, false⟩ 0 ⟨0, 0⟩| <
        |velocity_change ⟨true, false⟩ 0 ⟨0, 0⟩|)) ∧
    |velocity_change ⟨true, true⟩ (1/5) ⟨-75, 0⟩| <
      |velocity_change ⟨false, true⟩ (1/5) ⟨-75, 0⟩| := by
  constructor
  · simp [velocity_change, move_player, gravity, floorContact, FLOOR_Y,
      PLAYER_HEIGHT, jump_speed]
  · simp [velocity_change, move_player, gravity, floorContact, FLOOR_Y,
      PLAYER_HEIGHT, jump_speed]
    norm_num

/-- C8 amended: for equal `Δt > 0` on frames where the jump does not
fire, the velocity change with fast-fall held (`2000·Δt`) strictly
exceeds the change with fast-fall released (`500·Δt`) in absolute
value. -/
theorem C8_fastfall_gravity (d : ℚ) (hd : 0 < d) (st : PlayerState) (up : Bool)
    (hnojump : (up && decide (st.y ≤ floorContact + 1/10)) = false) :
    |velocity_change ⟨false, up⟩ d st| < |velocity_change ⟨true, up⟩ d st| := by
  have h1 := move_player_nojump ⟨false, up⟩ d st hnojump
  have h2 := move_player_nojump ⟨true, up⟩ d st hnojump
  unfold velocity_change
  rw [h1, h2]
  have e1 : st.vy + gravity ⟨false, up⟩ * d - st.vy = (-500) * d := by
    simp [gravity]
  have e2 : st.vy + gravity ⟨true, up⟩ * d - st.vy = (-2000) * d := by
    simp [gravity]
  show |st.vy + gravity ⟨false, up⟩ * d - st.vy| <
      |st.vy + gravity ⟨true, up⟩ * d - st.vy|
  rw [e1, e2, abs_mul, abs_mul, abs_of_pos hd,
      show |(-500 : ℚ)| = 500 by rw [abs_of_neg] <;> norm_num,
      show |(-2000 : ℚ)| = 2000 by rw [abs_of_neg] <;> norm_num]
  nlinarith

/-- C8 witness: an airborne `Δt = 1` frame without jump input. -/
theorem C8_fastfall_gravity_witness :
    |velocity_change ⟨false, false⟩ 1 ⟨0, 0⟩| <
      |velocity_change ⟨true, false⟩ 1 ⟨0, 0⟩| :=
  C8_fastfall_gravity 1 (by norm_num) ⟨0, 0⟩ false (by simp)

/-- C9 counterexample: at `Δt = 0` a fresh jump press on the floor still
changes `velocity.y` from `0` to `jump_speed = 350`, so not every
continuous quantity is left unchanged by a zero-delta frame. -/
theorem C9_counterexample :
    (move_player ⟨false, true⟩ 0 ⟨-75, 0⟩).st.vy = 350 ∧ ((350 : ℚ) ≠ 0) := by
  refine ⟨?_, by norm_num⟩
  simp [move_player, gravity, floorContact, FLOOR_Y, PLAYER_HEIGHT, jump_speed]
  norm_num

/-- A zero-delta `move_obstacles` pass is the identity on any pool whose
obstacles sit at `x ≥ OBSTACLE_MIN_X` (true of every pool the game
produces: after each step the recycle branch guarantees it). -/
theorem move_obstacles_zero_delta :
    ∀ (obs : List ObstacleState) (rng : Nat → Bool),
      (∀ o ∈ obs, OBSTACLE_MIN_X ≤ o.x) → move_obstacles 0 rng obs = obs
  | [], _, _ => rfl
  | o :: rest, rng, hobs => by
      have ho : OBSTACLE_MIN_X ≤ o.x := hobs o (List.mem_cons_self o rest)
      have hno : ¬ (o.x < OBSTACLE_MIN_X) := not_lt.mpr ho
      have hrest := move_obstacles_zero_delta rest (fun n => rng (n + 1))
        (fun o2 h2 => hobs o2 (List.mem_cons_of_mem o h2))
      simp [move_obstacles, move_obstacle_step, hno, hrest]

/-- C9 amended: a `Δt = 0` frame leaves player position and velocity,
obstacle positions and the score accumulator unchanged, provided no jump
fires that frame and the state satisfies the reachable-state invariants
(player at or above the contact height, obstacles at or right of
`OBSTACLE_MIN_X`).  A fresh on-floor jump press at `Δt = 0` does change
the velocity. -/
theorem C9_zero_delta_frozen (inp : Input) (st : PlayerState)
    (rng : Nat → Bool) (obs : List ObstacleState) (s : ℚ)
    (hnojump : (inp.upJustPressed && decide (st.y ≤ floorContact + 1/10)) = false)
    (hy : floorContact ≤ st.y)
    (hobs : ∀ o ∈ obs, OBSTACLE_MIN_X ≤ o.x) :
    (move_player inp 0 st).st = st ∧
    move_obstacles 0 rng obs = obs ∧
    update_score 0 s = s := by
  refine ⟨?_, move_obstacles_zero_delta obs rng hobs, by simp [update_score]⟩
  rw [move_player_nojump inp 0 st hnojump]
  obtain ⟨y, vy⟩ := st
  simp only [PlayerState.mk.injEq, mul_zero, add_zero]
  exact ⟨max_eq_left hy, trivial⟩

/-- C9 witness: a zero-delta frame at the rest state. -/
theorem C9_zero_delta_frozen_witness :
    (move_player ⟨false, false⟩ 0 ⟨-75, 0⟩).st = ⟨-75, 0⟩ :=
  (C9_zero_delta_frozen ⟨false, false⟩ ⟨-75, 0⟩ (fun _ => false)
    [⟨0, 0, false, "", 0, 0⟩] 0 (by simp)
    (by norm_num [floorContact, FLOOR_Y, PLAYER_HEIGHT])
    (by
      intro o ho
      simp only [List.mem_singleton] at ho
      subst ho
      norm_num [OBSTACLE_MIN_X])).1

/-- C10: the recycle step never touches the animation timer or the frame
index; both obstacle frame sets have length 3; and whenever the obstacle
animation timer finishes, the freshly computed frame index
`(index + 1) % frames.len()` is in bounds of the lane frame set selected
after any lane switch, so the sprite lookup succeeds. -/
theorem C10_recycle_animation_safe (d : ℚ) (b : Bool) (o : ObstacleState) :
    (move_obstacle_step d b o).timer = o.timer ∧
    (move_obstacle_step d b o).frameIndex = o.frameIndex ∧
    obstacle_ground_frames.length = 3 ∧
    obstacle_air_frames.length = 3 ∧
    (∀ d2 o2, obstacle_anim_period ≤ o2.timer + d2 →
      ((animate_obstacle_step d2 o2).2).isSome = true) := by
  refine ⟨?_, ?_, rfl, rfl, ?_⟩
  · simp only [move_obstacle_step]
    split <;> rfl
  · simp only [move_obstacle_step]
    split <;> rfl
  · intro d2 o2 hfin
    simp only [animate_obstacle_step, if_pos hfin]
    cases ho : o2.airborne
    · simp only [ho, Bool.false_eq_true, if_false]
      rw [List.getElem?_eq_getElem (Nat.mod_lt _ (by simp [obstacle_ground_frames]))]
      rfl
    · simp only [ho, if_true]
      rw [List.getElem?_eq_getElem (Nat.mod_lt _ (by simp [obstacle_air_frames]))]
      rfl

/-- C10 witness: a just-recycled air obstacle whose timer completes. -/
theorem C10_recycle_animation_safe_witness :
    ((animate_obstacle_step (3/10) ⟨0, 0, true, "", 0, 0⟩).2).isSome = true :=
  (C10_recycle_animation_safe 0 true ⟨0, 0, true, "", 0, 0⟩).2.2.2.2
    (3/10) ⟨0, 0, true, "", 0, 0⟩ (by norm_num [obstacle_anim_period])

end BevyFinal
